import Mathlib

/-!
Shallow embedding of `examples/utils.py` (plotting helpers for a PDE-solving
library) and proofs about it.

Numeric arrays are modelled over `ℚ`; one-dimensional arrays are `List ℚ` and
two-dimensional arrays are lists of rows.  The plotting functions are embedded
as pure functions that return the trace of external calls they make (to the
model's `solve` method, to the user's ground-truth `solution` function, and to
the plotting library) together with the outcome of the call (`Except`, since a
call can end in a raised exception).
-/

namespace PyDens

/-- A one-dimensional numeric array. -/
abbrev Vec := List ℚ

/-- A two-dimensional numeric array, as its list of rows. -/
abbrev Mat := List Vec

/-- `np.linspace(a, b, n)`: `n` evenly spaced samples from `a` to `b`,
endpoint included. -/
def linspace (a b : ℚ) (n : Nat) : Vec :=
  if n = 0 then []
  else if n = 1 then [a]
  else (List.range n).map (fun i : Nat => a + (b - a) * (i : ℚ) / ((n : ℚ) - 1))

/-- The C-order multi-index of flat index `r` in an array of shape `dims`:
the first axis varies slowest (digit along the first axis is the quotient of
`r` by the product of the remaining extents). -/
def unravelIndex : List Nat → Nat → List Nat
  | [], _ => []
  | _ :: ns, r => r / ns.prod :: unravelIndex ns (r % ns.prod)

/-- `cart_prod(*arrs)` from `examples/utils.py`:

    grids = np.meshgrid(*arrs, indexing='ij')
    return np.stack(grids, axis=-1).reshape(-1, len(arrs))

The stacked array has shape `(n1, ..., nk, k)` with entry `arrs[i][j_i]` at
multi-index `(j_1, ..., j_k, i)`; reshaping to `(-1, k)` flattens the leading
`k` axes in C order, so row `r` of the result is
`[arrs[0][j_1], ..., arrs[k-1][j_k]]` where `(j_1, ..., j_k)` is the C-order
multi-index of `r` in shape `(n1, ..., nk)`. -/
def cart_prod (arrs : List Vec) : Mat :=
  (List.range (arrs.map List.length).prod).map (fun r =>
    (arrs.zip (unravelIndex (arrs.map List.length) r)).map (fun p => p.1.getD p.2 0))

/-- Modelled from the spec's words (§3, §4.1): the Cartesian product of the
input sequences enumerated as nested loops with the first input varying
slowest, each row's `i`-th component drawn from the `i`-th input. -/
def cartProdSpec : List Vec → Mat
  | [] => [[]]
  | a :: rest => a.flatMap (fun x => (cartProdSpec rest).map (fun row => x :: row))

theorem linspace_length (a b : ℚ) (n : Nat) : (linspace a b n).length = n := by
  unfold linspace
  rcases n with _ | _ | n
  · rfl
  · rfl
  · rw [if_neg (by omega), if_neg (by omega)]
    simp

theorem unravelIndex_length (ns : List Nat) (r : Nat) :
    (unravelIndex ns r).length = ns.length := by
  induction ns generalizing r with
  | nil => rfl
  | cons n ns ih => simp [unravelIndex, ih]

theorem range_mul_flatMap (n P : Nat) :
    List.range (n * P) =
      (List.range n).flatMap (fun j => (List.range P).map (fun s => j * P + s)) := by
  induction n with
  | zero => simp
  | succ n ih =>
    rw [Nat.succ_mul, List.range_add, List.range_succ, List.flatMap_append, ← ih]
    simp

theorem map_getD_range (a : Vec) (d : ℚ) :
    (List.range a.length).map (fun j => a.getD j d) = a := by
  induction a with
  | nil => simp
  | cons x a ih =>
    rw [List.length_cons, List.range_succ_eq_map, List.map_cons, List.map_map]
    have hcomp : ((fun j => (x :: a).getD j d) ∘ Nat.succ) = fun j => a.getD j d := by
      funext j
      simp [List.getD_cons_succ]
    rw [List.getD_cons_zero, hcomp, ih]

theorem cart_prod_cons (a : Vec) (rest : List Vec) :
    cart_prod (a :: rest) =
      a.flatMap (fun x => (cart_prod rest).map (fun row => x :: row)) := by
  rcases Nat.eq_zero_or_pos (rest.map List.length).prod with hP | hP
  · have h2 : cart_prod rest = [] := by
      simp [cart_prod, hP]
    simp [cart_prod, hP, h2]
  · have key : cart_prod (a :: rest)
        = (List.range (a.length * (rest.map List.length).prod)).map
            (fun r => a.getD (r / (rest.map List.length).prod) 0 ::
              (rest.zip (unravelIndex (rest.map List.length)
                (r % (rest.map List.length).prod))).map (fun p => p.1.getD p.2 0)) := by
      simp [cart_prod, unravelIndex]
    rw [key, range_mul_flatMap, List.map_flatMap]
    have inner : ∀ j, (((List.range (rest.map List.length).prod).map
          (fun s => j * (rest.map List.length).prod + s)).map
            (fun r => a.getD (r / (rest.map List.length).prod) 0 ::
              (rest.zip (unravelIndex (rest.map List.length)
                (r % (rest.map List.length).prod))).map (fun p => p.1.getD p.2 0)))
        = (cart_prod rest).map (fun row => a.getD j 0 :: row) := by
      intro j
      rw [List.map_map]
      have hpt : ∀ s ∈ List.range (rest.map List.length).prod,
          ((fun r => a.getD (r / (rest.map List.length).prod) 0 ::
              (rest.zip (unravelIndex (rest.map List.length)
                (r % (rest.map List.length).prod))).map (fun p => p.1.getD p.2 0)) ∘
            (fun s => j * (rest.map List.length).prod + s)) s
          = a.getD j 0 ::
              (rest.zip (unravelIndex (rest.map List.length) s)).map
                (fun p => p.1.getD p.2 0) := by
        intro s hs
        rw [List.mem_range] at hs
        have hdiv : (j * (rest.map List.length).prod + s) / (rest.map List.length).prod = j := by
          rw [Nat.mul_comm, Nat.mul_add_div hP, Nat.div_eq_of_lt hs, Nat.add_zero]
        have hmod : (j * (rest.map List.length).prod + s) % (rest.map List.length).prod = s := by
          rw [Nat.mul_comm, Nat.mul_add_mod, Nat.mod_eq_of_lt hs]
        simp only [Function.comp_apply, hdiv, hmod]
      rw [List.map_congr_left hpt]
      show _ = ((List.range (rest.map List.length).prod).map _).map _
      rw [List.map_map]
      rfl
    rw [List.flatMap_congr (fun j _ => inner j)]
    have ha : a = (List.range a.length).map (fun j => a.getD j 0) := (map_getD_range a 0).symm
    conv_rhs => rw [ha]
    rw [List.flatMap_map]

theorem cart_prod_eq_spec : ∀ arrs : List Vec, cart_prod arrs = cartProdSpec arrs
  | [] => by simp [cart_prod, cartProdSpec, unravelIndex]
  | a :: rest => by
    rw [cart_prod_cons, cart_prod_eq_spec rest]
    rfl

/-- C1: for `k` non-empty one-dimensional inputs of lengths `n1..nk`,
`cart_prod` returns a two-dimensional array with exactly `n1*...*nk` rows
and `k` columns. -/
theorem cart_prod_shape (arrs : List Vec) (hk : arrs ≠ [])
    (hne : ∀ a ∈ arrs, a ≠ []) :
    (cart_prod arrs).length = (arrs.map List.length).prod ∧
    ∀ row ∈ cart_prod arrs, row.length = arrs.length := by
  refine ⟨by simp [cart_prod], ?_⟩
  intro row hrow
  simp only [cart_prod, List.mem_map] at hrow
  obtain ⟨r, _, rfl⟩ := hrow
  rw [List.length_map, List.length_zip, unravelIndex_length, List.length_map, min_self]

/-- Witness for C1 at the concrete input `[[1, 2, 3], [10, 20]]`. -/
theorem cart_prod_shape_spot :
    ([[1, 2, 3], [10, 20]] : List Vec) ≠ [] ∧
    (cart_prod [[1, 2, 3], [10, 20]]).length = 6 ∧
    ∀ row ∈ cart_prod ([[1, 2, 3], [10, 20]] : List Vec), row.length = 2 := by
  have h := cart_prod_shape [[1, 2, 3], [10, 20]] (by decide)
    (by intro a ha; fin_cases ha <;> decide)
  exact ⟨by decide, by rw [h.1]; rfl, h.2⟩

/-- C2: on non-empty inputs the rows of `cart_prod` enumerate the Cartesian
product in "ij" (first-array-slowest) order with the `i`-th component of each
row drawn from the `i`-th input array (the nested-loop enumeration
`cartProdSpec`); in particular `cart_prod [[1,2],[10,20]]` is
`[[1,10],[1,20],[2,10],[2,20]]` in that order. -/
theorem cart_prod_order (arrs : List Vec) (hk : arrs ≠ [])
    (hne : ∀ a ∈ arrs, a ≠ []) :
    cart_prod arrs = cartProdSpec arrs ∧
    cart_prod [[1, 2], [10, 20]] = [[1, 10], [1, 20], [2, 10], [2, 20]] :=
  ⟨cart_prod_eq_spec arrs, by decide⟩

/-- Witness for C2 at the concrete input `[[1, 2], [10, 20]]`. -/
theorem cart_prod_order_spot :
    cart_prod [[1, 2], [10, 20]] = cartProdSpec [[1, 2], [10, 20]] ∧
    cart_prod [[1, 2], [10, 20]] = [[1, 10], [1, 20], [2, 10], [2, 20]] :=
  cart_prod_order [[1, 2], [10, 20]] (by decide)
    (by intro a ha; fin_cases ha <;> decide)

/-- C7: on a single non-empty input array `a`, `cart_prod [a]` is `a`
reshaped to a single-column matrix, entries unchanged and in order. -/
theorem cart_prod_single (a : Vec) (ha : a ≠ []) :
    cart_prod [a] = a.map (fun x => [x]) := by
  clear ha
  rw [cart_prod_eq_spec]
  simp only [cartProdSpec]
  induction a with
  | nil => rfl
  | cons x a ih => rw [List.flatMap_cons, List.map_cons, ih]; rfl

/-- Witness for C7 at the concrete input `[5, 7]`. -/
theorem cart_prod_single_spot :
    ([5, 7] : Vec) ≠ [] ∧ cart_prod [[5, 7]] = [[5], [7]] :=
  ⟨by decide, (cart_prod_single [5, 7] (by decide)).trans (by decide)⟩

/-- The heap of arrays live during a session: handle `h` among the
one-dimensional arrays names `vecs[h]`, and among the two-dimensional arrays
names `mats[h]`. -/
structure Store where
  vecs : List Vec
  mats : List Mat

/-- One call of `cart_prod` on the one-dimensional arrays named by `handles`
in store `σ`: `np.meshgrid`, `np.stack` and the final `reshape` all produce
fresh buffers (`np.stack` always copies its inputs), so the call reads its
inputs, appends one fresh output array to the heap and returns its handle. -/
def cart_prod_call (σ : Store) (handles : List Nat) : Store × Nat :=
  (⟨σ.vecs, σ.mats ++ [cart_prod (handles.map (fun h => σ.vecs.getD h []))]⟩,
   σ.mats.length)

/-- C6: `cart_prod` is deterministic and pure: a call mutates none of its
input arrays (the whole one-dimensional heap is untouched), leaves every
previously existing output array unchanged, and a second call on the same
handles returns an array with contents identical to the first call's result. -/
theorem cart_prod_pure (σ : Store) (handles : List Nat) :
    (cart_prod_call σ handles).1.vecs = σ.vecs ∧
    (∀ h, h < σ.mats.length →
      (cart_prod_call σ handles).1.mats.getD h [] = σ.mats.getD h []) ∧
    (cart_prod_call (cart_prod_call σ handles).1 handles).1.mats.getD
        (cart_prod_call (cart_prod_call σ handles).1 handles).2 []
      = (cart_prod_call σ handles).1.mats.getD (cart_prod_call σ handles).2 [] := by
  have hlast : ∀ (l : List Mat) (x : Mat), (l ++ [x]).getD l.length [] = x := by
    intro l x
    rw [List.getD_eq_getElem?_getD, List.getElem?_append_right (le_refl _)]
    simp
  refine ⟨rfl, ?_, ?_⟩
  · intro h hlt
    simp only [cart_prod_call]
    rw [List.getD_append _ _ _ _ hlt]
  · simp only [cart_prod_call]
    rw [hlast, hlast]

/-! ### The plotting functions

Each plotting function is embedded as a pure function from its arguments to
the ordered trace of external calls it makes plus its outcome.  Arguments that
are pure presentation strings or numbers (`cmap`, `title`, axis labels,
`alpha`, `loc`, figure limits used only for styling) are forwarded verbatim to
the plotting primitives and affect nothing observable, so they are omitted
from the embedding; draw events record only the claim-relevant data. -/

/-- One observable external call made by a plotting function. -/
inductive Event where
  | solveCall (points : Mat) (fetches : Option String)
  | solutionCall (arg : Mat ⊕ Vec)
  | draw (name : String) (payload : List Vec)
  | savefig (path : String)
deriving DecidableEq

/-- The trained-model collaborator: `solve(points, fetches=None)`.  A call can
raise, hence `Except`. -/
structure Model where
  solve : Mat → Option String → Except String Vec

/-- Result of running a plotting function: the trace of its external calls in
order, and either a normal return or a raised exception. -/
abbrev Run := List Event × Except String Unit

/-- Python's `x or d` for an optional integer: both `None` and `0` are
falsy. -/
def pyOr (x : Option Nat) (d : Nat) : Nat :=
  match x with
  | none => d
  | some n => if n = 0 then d else n

/-- `v.reshape(r, c)` of a flat array: the `r × c` matrix in C order; raises
`ValueError` when the element count does not match. -/
def reshape2 (v : Vec) (r c : Nat) : Except String Mat :=
  if v.length = r * c then
    .ok ((List.range r).map (fun i => (List.range c).map (fun j => v.getD (i * c + j) 0)))
  else .error "ValueError"

/-- `np.concatenate([g, t * np.ones((g.shape[0], 1))], axis=1)`: append one
constant column `t` to a matrix. -/
def appendCol (g : Mat) (t : ℚ) : Mat := g.map (fun row => row ++ [t])

/-- The `model.solve` calls recorded in a trace, in order. -/
def solveCalls : List Event → List (Mat × Option String)
  | [] => []
  | .solveCall g f :: es => (g, f) :: solveCalls es
  | _ :: es => solveCalls es

/-- The ground-truth `solution` calls recorded in a trace, in order. -/
def solutionCalls : List Event → List (Mat ⊕ Vec)
  | [] => []
  | .solutionCall a :: es => a :: solutionCalls es
  | _ :: es => solutionCalls es

/-- The `fill_between` confidence bands recorded in a trace, in order
(payload: lower band then upper band). -/
def fillBands : List Event → List (List Vec)
  | [] => []
  | .draw n p :: es => if n = "fill_between" then p :: fillBands es else fillBands es
  | _ :: es => fillBands es

theorem solveCalls_append (l₁ l₂ : List Event) :
    solveCalls (l₁ ++ l₂) = solveCalls l₁ ++ solveCalls l₂ := by
  induction l₁ with
  | nil => rfl
  | cons e es ih => cases e <;> simp [solveCalls, ih]

theorem solutionCalls_append (l₁ l₂ : List Event) :
    solutionCalls (l₁ ++ l₂) = solutionCalls l₁ ++ solutionCalls l₂ := by
  induction l₁ with
  | nil => rfl
  | cons e es ih => cases e <;> simp [solutionCalls, ih]

theorem fillBands_append (l₁ l₂ : List Event) :
    fillBands (l₁ ++ l₂) = fillBands l₁ ++ fillBands l₂ := by
  induction l₁ with
  | nil => rfl
  | cons e es ih =>
    cases e with
    | draw n p =>
      by_cases hn : n = "fill_between" <;> simp [fillBands, hn, ih]
    | _ => simp [fillBands, ih]

/-- `plot_2d` from `examples/utils.py`.  In `'imshow'` mode with `grid=None`
the local `num_points` is rebound by `num_points or 80` before the grid is
built, and the final `reshape(num_points, num_points)` uses that rebound
value (a `TypeError` when the caller supplied a grid but no `num_points`).
In the `'contourf'`/`'3d_view'` modes the locals `xs`, `ys` are assigned only
on the `grid is None` path, so a caller-supplied grid leaves them unbound and
the later `len(xs)` raises `UnboundLocalError` — after `model.solve(grid)`
(no `fetches` in these modes) has already been evaluated, since Python
evaluates the callee `model.solve(grid)` before the arguments of `.reshape`.
A mode string other than the three recognized ones skips every branch: only
the trailing `if save: plt.savefig(path)` can run. -/
def plot_2d (model : Model) (mode : String) (fetches : Option String)
    (grid : Option Mat) (xlim ylim : ℚ × ℚ) (num_points : Option Nat)
    (save : Bool) (path : String) : Run :=
  if mode = "imshow" then
    let np2 : Option Nat := match grid with
      | none => some (pyOr num_points 80)
      | some _ => num_points
    let g : Mat := match grid with
      | none => cart_prod [linspace xlim.1 xlim.2 (pyOr num_points 80),
                           linspace ylim.1 ylim.2 (pyOr num_points 80)]
      | some g0 => g0
    match model.solve g fetches with
    | .error e => ([.solveCall g fetches], .error e)
    | .ok approxs =>
      match np2 with
      | none => ([.solveCall g fetches], .error "TypeError")
      | some n =>
        match reshape2 approxs n n with
        | .error e => ([.solveCall g fetches], .error e)
        | .ok zs =>
          ([.solveCall g fetches, .draw "imshow" zs, .draw "title" [], .draw "colorbar" []]
            ++ (if save then [.savefig path] else []), .ok ())
  else if mode = "contourf" ∨ mode = "3d_view" then
    let np3 : Nat := pyOr num_points (if mode = "contourf" then 80 else 20)
    let xs : Option Vec := match grid with
      | none => some (linspace xlim.1 xlim.2 np3)
      | some _ => none
    let ys : Option Vec := match grid with
      | none => some (linspace ylim.1 ylim.2 np3)
      | some _ => none
    let g : Mat := match grid with
      | none => cart_prod [linspace xlim.1 xlim.2 np3, linspace ylim.1 ylim.2 np3]
      | some g0 => g0
    match model.solve g none with
    | .error e => ([.solveCall g none], .error e)
    | .ok approxs =>
      match xs, ys with
      | some xsv, some ysv =>
        match reshape2 approxs xsv.length ysv.length with
        | .error e => ([.solveCall g none], .error e)
        | .ok zs =>
          if mode = "contourf" then
            ([.solveCall g none, .draw "contourf" zs, .draw "title" [], .draw "colorbar" []]
              ++ (if save then [.savefig path] else []) ++ [.draw "show" []], .ok ())
          else
            ([.solveCall g none, .draw "figure" [], .draw "plot_surface" zs,
              .draw "set_title" [], .draw "set_xlabel" [], .draw "set_ylabel" []]
              ++ (if save then [.savefig path] else []) ++ [.draw "show" []], .ok ())
      | _, _ => ([.solveCall g none], .error "UnboundLocalError")
  else
    ((if save then [.savefig path] else []), .ok ())

/-- `points if plot_coord is None else points[:, plot_coord]`: the value the
ground-truth `solution` is applied to in `plot_pair_1d` — the full
two-dimensional points, or the selected one-dimensional column.  An
out-of-bounds column index raises `IndexError` (before `solution` is ever
invoked); in bounds, numpy selects entry `plot_coord` of every row. -/
def selPoints (pts : Mat) (plot_coord : Option Nat) : Except String (Mat ⊕ Vec) :=
  match plot_coord with
  | none => .ok (.inl pts)
  | some j =>
    if ∀ row ∈ pts, j < row.length then
      .ok (.inr (pts.map (fun row => row.getD j 0)))
    else .error "IndexError"

/-- `points.reshape(-1)` of the (possibly column-selected) points value: the
`x` argument that `plot_pair_1d` hands to `fill_between`. -/
def flatSel : Mat ⊕ Vec → Vec
  | .inl p => p.flatten
  | .inr v => v

/-- `plot_pair_1d` from `examples/utils.py`.  Default points are
`np.linspace(0, 1, 200).reshape(-1, 1)`.  `model.solve(points)` is evaluated
first; then `points` is rebound to `points[:, plot_coord]` (a one-dimensional
array, an `IndexError` when the column index is out of bounds) when
`plot_coord` is given, and the user-supplied ground-truth `solution` is
applied to that value.  `plt.plot(x, y)` raises `ValueError` when the first
dimensions of `x` and `y` differ; the confidence band `true ± confidence` is
drawn with `fill_between` only when `confidence` is not `None`, and that call
raises `ValueError` when `points.reshape(-1)` and `true ∓ confidence` do not
broadcast to a common length. -/
def plot_pair_1d (solution : Mat ⊕ Vec → Except String Vec) (model : Model)
    (points : Option Mat) (plot_coord : Option Nat) (confidence : Option ℚ)
    (save : Bool) (path : String) : Run :=
  let pts : Mat := points.getD ((linspace 0 1 200).map (fun x => [x]))
  match model.solve pts none with
  | .error e => ([.solveCall pts none], .error e)
  | .ok approxs =>
    match selPoints pts plot_coord with
    | .error e => ([.solveCall pts none], .error e)
    | .ok sel =>
      match solution sel with
      | .error e => ([.solveCall pts none, .solutionCall sel], .error e)
      | .ok trueVals =>
        if trueVals.length = pts.length then
          if approxs.length = pts.length then
            match confidence with
            | none =>
              ([.solveCall pts none, .solutionCall sel,
                .draw "plot" [trueVals], .draw "plot" [approxs],
                .draw "xlabel" [], .draw "ylabel" [], .draw "title" []]
                ++ [.draw "legend" [], .draw "grid" []]
                ++ (if save then [.savefig path] else [])
                ++ [.draw "show" []], .ok ())
            | some conf =>
              -- fill_between(x, y1, y2) raises ValueError unless the lengths
              -- of x = points.reshape(-1) and y1, y2 = true ∓ conf broadcast
              if (flatSel sel).length = trueVals.length ∨ (flatSel sel).length = 1
                  ∨ trueVals.length = 1 then
                ([.solveCall pts none, .solutionCall sel,
                  .draw "plot" [trueVals], .draw "plot" [approxs],
                  .draw "xlabel" [], .draw "ylabel" [], .draw "title" []]
                  ++ [.draw "fill_between"
                      [trueVals.map (fun y => y - conf), trueVals.map (fun y => y + conf)]]
                  ++ [.draw "legend" [], .draw "grid" []]
                  ++ (if save then [.savefig path] else [])
                  ++ [.draw "show" []], .ok ())
              else
                ([.solveCall pts none, .solutionCall sel,
                  .draw "plot" [trueVals], .draw "plot" [approxs],
                  .draw "xlabel" [], .draw "ylabel" [], .draw "title" []],
                 .error "ValueError")
          else ([.solveCall pts none, .solutionCall sel, .draw "plot" [trueVals]],
                .error "ValueError")
        else ([.solveCall pts none, .solutionCall sel], .error "ValueError")

/-- The per-timestamp loop of `plot_sections_2d`.  `col` is
`points.reshape(-1, 1)` as a flat list, `nrows` is `points.shape[0]`, and
`r × c` is the subplot grid.  Iteration `i` on timestamp `t` first builds
`points_ = np.concatenate([points.reshape(-1, 1), t * ones((points.shape[0], 1))],
axis=1)` — a `ValueError` unless the two heights `points.size` and
`points.shape[0]` agree, i.e. unless `points` has a single column — then
indexes `axes[i // c, i % c]` (an `IndexError` unless `plt.subplots(r, c)`
produced a two-dimensional axes array, i.e. `r ≥ 2` and `c ≥ 2` after
squeezing, with the indices in range), then evaluates `model.solve` on
`points_`, then calls `plot` (a `ValueError` unless its two arguments have
equal first dimension), `set_ylim` and `set_title`. -/
def sections2dLoop (model : Model) (fetches : Option String) (col : Vec)
    (nrows r c : Nat) : Nat → List ℚ → Run
  | _, [] => ([], .ok ())
  | i, t :: ts =>
    if col.length = nrows then
      if 2 ≤ r ∧ 2 ≤ c ∧ i / c < r ∧ i % c < c then
        let pts := appendCol (col.map (fun x => [x])) t
        match model.solve pts fetches with
        | .error e => ([.solveCall pts fetches], .error e)
        | .ok ap =>
          if ap.length = col.length then
            let rest := sections2dLoop model fetches col nrows r c (i + 1) ts
            (.solveCall pts fetches :: .draw "plot" [col, ap] :: .draw "set_ylim" []
               :: .draw "set_title" [] :: rest.1, rest.2)
          else ([.solveCall pts fetches, .draw "plot" [col, ap]], .error "ValueError")
      else ([], .error "IndexError")
    else ([], .error "ValueError")

/-- The calls `plot_sections_2d` makes after its loop: nothing more when the
loop raised, otherwise layout calls, the optional save, and `show`. -/
def sections2dPostlude (o : Except String Unit) (save : Bool) (path : String) :
    List Event :=
  match o with
  | .error _ => []
  | .ok _ => [.draw "tight_layout" [], .draw "suptitle" [], .draw "subplots_adjust" []]
      ++ (if save then [.savefig path] else []) ++ [.draw "show" []]

/-- `plot_sections_2d` from `examples/utils.py`.  The shared spatial grid is
`points.reshape(-1, 1)` (defaulting to `np.linspace(0, 1, 100).reshape(-1, 1)`),
and one `model.solve` call is made per timestamp on that grid with the
timestamp appended as an extra constant column. -/
def plot_sections_2d (model : Model) (timestamps : List ℚ) (grid_size : Nat × Nat)
    (points : Option Mat) (fetches : Option String) (save : Bool) (path : String) : Run :=
  let pts : Mat := points.getD ((linspace 0 1 100).map (fun x => [x]))
  let col : Vec := pts.flatten
  let body := sections2dLoop model fetches col pts.length grid_size.1 grid_size.2
    0 timestamps
  (.draw "subplots" [] :: body.1 ++ sections2dPostlude body.2 save path, body.2)

/-- Resolution of `num_points` in `plot_sections_3d` (the source tests
`num_points is None` here, not falsiness): `80` for the `imshow` and
`contourf` modes, `20` otherwise. -/
def sectionsNumPoints (mode : String) (num_points : Option Nat) : Nat :=
  match num_points with
  | some n => n
  | none => if mode = "imshow" ∨ mode = "contourf" then 80 else 20

/-- The drawing primitives dispatched on `mode` inside the `plot_sections_3d`
loop; an unrecognized mode draws nothing here. -/
def sectionModeDraws (mode : String) (zs : Mat) : List Event :=
  if mode = "imshow" then [.draw "imshow" zs]
  else if mode = "contourf" then [.draw "contourf" zs]
  else if mode = "3d_view" then [.draw "plot_surface" zs, .draw "set_zlim" []]
  else []

/-- The per-timestamp loop of `plot_sections_3d`.  Iteration `i` on
timestamp `t` first calls `fig.add_subplot(r, c, i + 1)` (a `ValueError`
unless `1 ≤ i + 1 ≤ r * c`), then evaluates `model.solve` on the grid with
the timestamp appended and reshapes the result to `(nx, ny)`, then draws
according to `mode` and sets title and axis labels. -/
def sections3dLoop (model : Model) (mode : String) (grid : Mat) (nx ny : Nat)
    (r c : Nat) : Nat → List ℚ → Run
  | _, [] => ([], .ok ())
  | i, t :: ts =>
    if i + 1 ≤ r * c then
      let pts := appendCol grid t
      match model.solve pts none with
      | .error e => ([.draw "add_subplot" [], .solveCall pts none], .error e)
      | .ok ap =>
        match reshape2 ap nx ny with
        | .error e => ([.draw "add_subplot" [], .solveCall pts none], .error e)
        | .ok zs =>
          let rest := sections3dLoop model mode grid nx ny r c (i + 1) ts
          (.draw "add_subplot" [] :: .solveCall pts none :: sectionModeDraws mode zs
             ++ [.draw "set_title" [], .draw "set_xlabel" [], .draw "set_ylabel" []]
             ++ rest.1,
           rest.2)
    else ([.draw "add_subplot" []], .error "ValueError")

/-- The calls `plot_sections_3d` makes after its loop: nothing more when the
loop raised, otherwise the suptitle, the optional save, and `show`. -/
def sections3dPostlude (o : Except String Unit) (save : Bool) (path : String) :
    List Event :=
  match o with
  | .error _ => []
  | .ok _ => [.draw "suptitle" []]
      ++ (if save then [.savefig path] else []) ++ [.draw "show" []]

/-- `plot_sections_3d` from `examples/utils.py`.  The shared spatial grid is
`cart_prod(np.linspace(*xlim, num_points), np.linspace(*ylim, num_points))`,
and one `model.solve` call is made per timestamp on that grid with the
timestamp appended as an extra constant column.  The `fetches` argument of
the source function is accepted but never forwarded to `solve`, so it does
not appear here. -/
def plot_sections_3d (model : Model) (timestamps : List ℚ) (grid_size : Nat × Nat)
    (mode : String) (xlim ylim : ℚ × ℚ) (num_points : Option Nat)
    (save : Bool) (path : String) : Run :=
  let np3 : Nat := sectionsNumPoints mode num_points
  let xs := linspace xlim.1 xlim.2 np3
  let ys := linspace ylim.1 ylim.2 np3
  let grid := cart_prod [xs, ys]
  let body := sections3dLoop model mode grid xs.length ys.length
    grid_size.1 grid_size.2 0 timestamps
  (.draw "figure" [] :: body.1 ++ sections3dPostlude body.2 save path, body.2)

/-- C3: on a mode string other than `"imshow"`, `"contourf"` and `"3d_view"`,
`plot_2d` invokes no plotting primitive and makes no `solve` call, and no
exception is raised: the call falls through and returns normally.  (Only the
mode-independent persistence step `if save: plt.savefig(path)` can run.) -/
theorem plot_2d_unknown_mode (model : Model) (mode : String)
    (fetches : Option String) (grid : Option Mat) (xlim ylim : ℚ × ℚ)
    (num_points : Option Nat) (save : Bool) (path : String)
    (h1 : mode ≠ "imshow") (h2 : mode ≠ "contourf") (h3 : mode ≠ "3d_view") :
    plot_2d model mode fetches grid xlim ylim num_points save path
      = ((if save then [Event.savefig path] else []), Except.ok ()) := by
  simp [plot_2d, h1, h2, h3]

/-- Witness for C3 at the concrete mode string `"heatmap"`. -/
theorem plot_2d_unknown_mode_spot :
    plot_2d ⟨fun g _ => .ok (g.map (fun _ => 0))⟩ "heatmap" none none (0, 1) (0, 1)
        none false "out.png" = ([], Except.ok ()) :=
  (plot_2d_unknown_mode _ "heatmap" none none (0, 1) (0, 1) none false "out.png"
    (by decide) (by decide) (by decide)).trans rfl

/-- C4: in `"imshow"` mode with no caller-supplied grid, `model.solve` is
invoked exactly once, on a grid whose row count is `num_points ** 2`, with
`num_points` defaulting to `80` when unspecified. -/
theorem plot_2d_imshow_solve_once (model : Model) (fetches : Option String)
    (xlim ylim : ℚ × ℚ) (num_points : Option Nat) (save : Bool) (path : String)
    (hnp : ∀ n, num_points = some n → 0 < n) :
    ∃ g : Mat,
      solveCalls (plot_2d model "imshow" fetches none xlim ylim num_points save path).1
        = [(g, fetches)] ∧ g.length = num_points.getD 80 ^ 2 := by
  have hpy : pyOr num_points 80 = num_points.getD 80 := by
    cases num_points with
    | none => rfl
    | some n =>
      have hn := hnp n rfl
      simp [pyOr, Nat.pos_iff_ne_zero.mp hn]
  refine ⟨cart_prod [linspace xlim.1 xlim.2 (pyOr num_points 80),
                     linspace ylim.1 ylim.2 (pyOr num_points 80)], ?_, ?_⟩
  · cases hs : model.solve (cart_prod [linspace xlim.1 xlim.2 (pyOr num_points 80),
        linspace ylim.1 ylim.2 (pyOr num_points 80)]) fetches with
    | error e => simp [plot_2d, hs, solveCalls]
    | ok ap =>
      cases hr : reshape2 ap (pyOr num_points 80) (pyOr num_points 80) with
      | error e => simp [plot_2d, hs, hr, solveCalls]
      | ok zs =>
        cases save <;>
          simp [plot_2d, hs, hr, solveCalls, solveCalls_append]
  · simp [cart_prod, linspace_length, hpy]
    ring

/-- Witness for C4 with `num_points = 2`. -/
theorem plot_2d_imshow_solve_once_spot :
    ∃ g : Mat,
      solveCalls (plot_2d ⟨fun gr _ => .ok (gr.map (fun _ => 0))⟩ "imshow" none none
          (0, 1) (0, 1) (some 2) false "out.png").1
        = [(g, none)] ∧ g.length = (some 2 : Option Nat).getD 80 ^ 2 :=
  plot_2d_imshow_solve_once _ none (0, 1) (0, 1) (some 2) false "out.png"
    (by intro n hn; cases hn; decide)

/-- C10: in `"contourf"` or `"3d_view"` mode with a caller-supplied grid
(and an otherwise well-behaved model), `plot_2d` raises `UnboundLocalError`
before any plotting primitive runs: the locals `xs`, `ys` are assigned only
on the `grid is None` path, so the call's trace is exactly the single
`model.solve` call that Python evaluates before reaching `len(xs)`. -/
theorem plot_2d_supplied_grid_unbound (model : Model) (mode : String)
    (fetches : Option String) (g : Mat) (xlim ylim : ℚ × ℚ)
    (num_points : Option Nat) (save : Bool) (path : String)
    (hm : mode = "contourf" ∨ mode = "3d_view")
    (v : Vec) (hs : model.solve g none = .ok v) :
    plot_2d model mode fetches (some g) xlim ylim num_points save path
      = ([Event.solveCall g none], .error "UnboundLocalError") := by
  rcases hm with rfl | rfl <;> simp [plot_2d, hs]

/-- Witness for C10 in `"contourf"` mode with the supplied grid `[[0, 0]]`. -/
theorem plot_2d_supplied_grid_unbound_spot :
    plot_2d ⟨fun gr _ => .ok (gr.map (fun _ => 0))⟩ "contourf" none (some [[0, 0]])
        (0, 1) (0, 1) none false "out.png"
      = ([Event.solveCall [[0, 0]] none], .error "UnboundLocalError") :=
  plot_2d_supplied_grid_unbound _ "contourf" none [[0, 0]] (0, 1) (0, 1) none false
    "out.png" (Or.inl rfl) [0] rfl

theorem solveCalls_sectionModeDraws (mode : String) (zs : Mat) :
    solveCalls (sectionModeDraws mode zs) = [] := by
  unfold sectionModeDraws
  split_ifs <;> rfl

theorem solveCalls_sections2dPostlude (o : Except String Unit) (save : Bool)
    (path : String) : solveCalls (sections2dPostlude o save path) = [] := by
  cases o <;> cases save <;> rfl

theorem solveCalls_sections3dPostlude (o : Except String Unit) (save : Bool)
    (path : String) : solveCalls (sections3dPostlude o save path) = [] := by
  cases o <;> cases save <;> rfl

theorem flatten_length_single (m : Mat) (h : ∀ row ∈ m, row.length = 1) :
    m.flatten.length = m.length := by
  induction m with
  | nil => rfl
  | cons row rows ih =>
    simp only [List.flatten_cons, List.length_append, List.length_cons]
    rw [h row (by simp), ih (fun r hr => h r (by simp [hr]))]
    omega

theorem sections2dLoop_solveCalls (model : Model) (fetches : Option String)
    (col : Vec) (nrows r c : Nat)
    (hmodel : ∀ g f, ∃ v, model.solve g f = .ok v ∧ v.length = g.length)
    (hcol : col.length = nrows) (hr : 2 ≤ r) (hc : 2 ≤ c) :
    ∀ (ts : List ℚ) (i : Nat), i + ts.length ≤ r * c →
      solveCalls (sections2dLoop model fetches col nrows r c i ts).1
        = ts.map (fun t => (appendCol (col.map (fun x => [x])) t, fetches))
  | [], _, _ => rfl
  | t :: ts, i, hfit => by
    have hi : i < r * c := by
      rw [List.length_cons] at hfit
      omega
    have hcond : 2 ≤ r ∧ 2 ≤ c ∧ i / c < r ∧ i % c < c :=
      ⟨hr, hc, Nat.div_lt_of_lt_mul (Nat.mul_comm r c ▸ hi), Nat.mod_lt _ (by omega)⟩
    obtain ⟨v, hv, hvlen⟩ := hmodel (appendCol (col.map (fun x => [x])) t) fetches
    have hlen : v.length = col.length := by
      rw [hvlen]
      simp [appendCol]
    have ih := sections2dLoop_solveCalls model fetches col nrows r c hmodel hcol hr hc
      ts (i + 1) (by rw [List.length_cons] at hfit; omega)
    simp only [sections2dLoop, if_pos hcol, if_pos hcond, hv, if_pos hlen,
      List.map_cons, solveCalls, ih]

theorem sections3dLoop_solveCalls (model : Model) (mode : String) (grid : Mat)
    (nx ny : Nat) (r c : Nat)
    (hmodel : ∀ g f, ∃ v, model.solve g f = .ok v ∧ v.length = g.length)
    (hlen : grid.length = nx * ny) :
    ∀ (ts : List ℚ) (i : Nat), i + ts.length ≤ r * c →
      solveCalls (sections3dLoop model mode grid nx ny r c i ts).1
        = ts.map (fun t => (appendCol grid t, none))
  | [], _, _ => rfl
  | t :: ts, i, hfit => by
    have hi : i + 1 ≤ r * c := by
      rw [List.length_cons] at hfit
      omega
    obtain ⟨v, hv, hvlen⟩ := hmodel (appendCol grid t) none
    have hre : reshape2 v nx ny
        = .ok ((List.range nx).map
            (fun i => (List.range ny).map (fun j => v.getD (i * ny + j) 0))) := by
      rw [reshape2, if_pos]
      rw [hvlen]
      simpa [appendCol] using hlen
    have ih := sections3dLoop_solveCalls model mode grid nx ny r c hmodel hlen ts (i + 1)
      (by rw [List.length_cons] at hfit; omega)
    simp only [sections3dLoop, if_pos hi, hv, hre, List.map_cons, solveCalls,
      List.cons_append, solveCalls_append, solveCalls_sectionModeDraws, ih,
      List.nil_append]

/-- C5: each of the two section-plotting functions calls `model.solve`
exactly once per timestamp, each time on the shared spatial grid with one
extra constant column holding that timestamp appended (for `plot_sections_2d`
the shared grid is `points.reshape(-1, 1)`; for `plot_sections_3d` it is the
`cart_prod` of the two linspaces).  Hypotheses: the model honours the solve
contract (one scalar per input point, no exception), the spatial points for
`plot_sections_2d` are a single-column array (otherwise `np.concatenate`
raises before the first solve call) and the timestamps fit the subplot grid,
so no iteration aborts early. -/
theorem sections_solve_per_timestamp (model : Model) (timestamps : List ℚ)
    (r c : Nat) (points : Option Mat) (fetches : Option String) (mode : String)
    (xlim ylim : ℚ × ℚ) (num_points : Option Nat) (save : Bool) (path : String)
    (hmodel : ∀ g f, ∃ v, model.solve g f = .ok v ∧ v.length = g.length)
    (hsq : ∀ row ∈ points.getD ((linspace 0 1 100).map (fun x => [x])), row.length = 1)
    (hr : 2 ≤ r) (hc : 2 ≤ c) (hfit : timestamps.length ≤ r * c) :
    solveCalls (plot_sections_2d model timestamps (r, c) points fetches save path).1
      = timestamps.map (fun t =>
          (appendCol (((points.getD ((linspace 0 1 100).map (fun x => [x]))).flatten).map
              (fun x => [x])) t, fetches)) ∧
    solveCalls (plot_sections_3d model timestamps (r, c) mode xlim ylim num_points
        save path).1
      = timestamps.map (fun t =>
          (appendCol (cart_prod
              [linspace xlim.1 xlim.2 (sectionsNumPoints mode num_points),
               linspace ylim.1 ylim.2 (sectionsNumPoints mode num_points)]) t, none)) := by
  constructor
  · have hloop := sections2dLoop_solveCalls model fetches
      ((points.getD ((linspace 0 1 100).map (fun x => [x]))).flatten)
      (points.getD ((linspace 0 1 100).map (fun x => [x]))).length r c hmodel
      (flatten_length_single _ hsq) hr hc timestamps 0 (by omega)
    simp only [plot_sections_2d, solveCalls, List.cons_append, List.append_eq,
      solveCalls_append, solveCalls_sections2dPostlude, List.append_nil]
    exact hloop
  · have hgl : (cart_prod
        [linspace xlim.1 xlim.2 (sectionsNumPoints mode num_points),
         linspace ylim.1 ylim.2 (sectionsNumPoints mode num_points)]).length
      = (linspace xlim.1 xlim.2 (sectionsNumPoints mode num_points)).length *
        (linspace ylim.1 ylim.2 (sectionsNumPoints mode num_points)).length := by
      simp [cart_prod]
    have hloop := sections3dLoop_solveCalls model mode
      (cart_prod [linspace xlim.1 xlim.2 (sectionsNumPoints mode num_points),
                  linspace ylim.1 ylim.2 (sectionsNumPoints mode num_points)])
      (linspace xlim.1 xlim.2 (sectionsNumPoints mode num_points)).length
      (linspace ylim.1 ylim.2 (sectionsNumPoints mode num_points)).length
      r c hmodel hgl timestamps 0 (by omega)
    simp only [plot_sections_3d, solveCalls, List.cons_append, List.append_eq,
      solveCalls_append, solveCalls_sections3dPostlude, List.append_nil]
    exact hloop

/-- Witness for C5 at concrete inputs: two timestamps, a 2×3 subplot grid, a
two-point spatial grid, `num_points = 2` and a constant stub model. -/
theorem sections_solve_per_timestamp_spot :
    solveCalls (plot_sections_2d ⟨fun g _ => .ok (g.map (fun _ => 0))⟩ [0, 1] (2, 3)
        (some [[0], [1]]) none false "s.png").1
      = ([0, 1] : List ℚ).map (fun t =>
          (appendCol ((((some [[0], [1]] : Option Mat).getD
              ((linspace 0 1 100).map (fun x => [x]))).flatten).map (fun x => [x])) t,
           (none : Option String))) ∧
    solveCalls (plot_sections_3d ⟨fun g _ => .ok (g.map (fun _ => 0))⟩ [0, 1] (2, 3)
        "3d_view" (0, 1) (0, 1) (some 2) false "s.png").1
      = ([0, 1] : List ℚ).map (fun t =>
          (appendCol (cart_prod
              [linspace 0 1 (sectionsNumPoints "3d_view" (some 2)),
               linspace 0 1 (sectionsNumPoints "3d_view" (some 2))]) t, none)) :=
  sections_solve_per_timestamp ⟨fun g _ => .ok (g.map (fun _ => 0))⟩ [0, 1] 2 3
    (some [[0], [1]]) none "3d_view" (0, 1) (0, 1) (some 2) false "s.png"
    (fun g f => ⟨g.map (fun _ => 0), rfl, by simp⟩)
    (by
      intro row hrow
      rw [Option.getD_some] at hrow
      simp only [List.mem_cons, List.not_mem_nil, or_false] at hrow
      rcases hrow with rfl | rfl <;> rfl)
    (by decide) (by decide) (by decide)

/-- C8: there is no exception handling anywhere: an exception raised by the
model's `solve` call propagates uncaught out of every plotting function that
makes one, and an exception raised by the ground-truth `solution` function
propagates uncaught out of `plot_pair_1d`.  (Failures of the numeric-library
`reshape`, of `np.concatenate` and of the plotting primitives likewise
surface as the error outcome; no branch of any embedded function discards an
error.)  Hypotheses keep each solve/solution call reachable on its conjunct:
for `plot_pair_1d` the column selection must succeed before `solution` runs,
and for `plot_sections_2d` the points must be single-column so that
`np.concatenate` does not raise before the first solve call. -/
theorem plotting_errors_propagate (badModel okModel : Model) (e : String)
    (solution badSolution : Mat ⊕ Vec → Except String Vec)
    (points : Option Mat) (plot_coord : Option Nat) (confidence : Option ℚ)
    (fetches : Option String) (grid : Option Mat) (xlim ylim : ℚ × ℚ)
    (num_points : Option Nat) (timestamps : List ℚ) (r c : Nat)
    (mode : String) (save : Bool) (path : String)
    (hbad : ∀ g f, badModel.solve g f = .error e)
    (hok : ∀ g f, ∃ v, okModel.solve g f = .ok v)
    (hbadsol : ∀ a, badSolution a = .error e)
    (hselok : ∃ s, selPoints (points.getD ((linspace 0 1 200).map (fun x => [x])))
        plot_coord = .ok s)
    (hsq : ∀ row ∈ points.getD ((linspace 0 1 100).map (fun x => [x])), row.length = 1)
    (hts : timestamps ≠ []) (hr : 2 ≤ r) (hc : 2 ≤ c) :
    (plot_pair_1d solution badModel points plot_coord confidence save path).2
      = .error e ∧
    (plot_pair_1d badSolution okModel points plot_coord confidence save path).2
      = .error e ∧
    (plot_2d badModel "imshow" fetches grid xlim ylim num_points save path).2
      = .error e ∧
    (plot_sections_2d badModel timestamps (r, c) points fetches save path).2
      = .error e ∧
    (plot_sections_3d badModel timestamps (r, c) mode xlim ylim num_points save path).2
      = .error e := by
  refine ⟨?_, ?_, ?_, ?_, ?_⟩
  · simp [plot_pair_1d, hbad]
  · obtain ⟨v, hv⟩ := hok (points.getD ((linspace 0 1 200).map (fun x => [x]))) none
    obtain ⟨s, hs⟩ := hselok
    simp [plot_pair_1d, hv, hs, hbadsol]
  · cases grid with
    | none => simp [plot_2d, hbad]
    | some g0 => simp [plot_2d, hbad]
  · cases timestamps with
    | nil => exact absurd rfl hts
    | cons t ts =>
      have hcol := flatten_length_single _ hsq
      have hr0 : 0 < r := by omega
      have hc0 : 0 < c := by omega
      simp [plot_sections_2d, sections2dLoop, hcol, hbad, hr, hc, hr0, hc0]
  · cases timestamps with
    | nil => exact absurd rfl hts
    | cons t ts =>
      have h1 : 0 + 1 ≤ r * c := Nat.mul_pos (by omega) (by omega)
      simp [plot_sections_3d, sections3dLoop, if_pos h1, hbad]

/-- Witness for C8 with a model that always raises `"boom"`, a well-behaved
model, and a ground-truth function that always raises `"boom"`. -/
theorem plotting_errors_propagate_spot :
    (plot_pair_1d (fun _ => .ok []) ⟨fun _ _ => .error "boom"⟩ (some [[0]]) none none
        false "p.png").2 = .error "boom" ∧
    (plot_pair_1d (fun _ => .error "boom") ⟨fun g _ => .ok (g.map (fun _ => 0))⟩
        (some [[0]]) none none false "p.png").2 = .error "boom" ∧
    (plot_2d ⟨fun _ _ => .error "boom"⟩ "imshow" none none (0, 1) (0, 1) none false
        "p.png").2 = .error "boom" ∧
    (plot_sections_2d ⟨fun _ _ => .error "boom"⟩ [0] (2, 2) (some [[0]]) none false
        "p.png").2 = .error "boom" ∧
    (plot_sections_3d ⟨fun _ _ => .error "boom"⟩ [0] (2, 2) "3d_view" (0, 1) (0, 1)
        none false "p.png").2 = .error "boom" :=
  plotting_errors_propagate ⟨fun _ _ => .error "boom"⟩
    ⟨fun g _ => .ok (g.map (fun _ => 0))⟩ "boom" (fun _ => .ok [])
    (fun _ => .error "boom") (some [[0]]) none none none none (0, 1) (0, 1) none
    [0] 2 2 "3d_view" false "p.png"
    (fun _ _ => rfl) (fun g _ => ⟨g.map (fun _ => 0), rfl⟩) (fun _ => rfl)
    ⟨Sum.inl [[0]], rfl⟩
    (by
      intro row hrow
      rw [Option.getD_some] at hrow
      simp only [List.mem_cons, List.not_mem_nil, or_false] at hrow
      rcases hrow with rfl
      rfl)
    (by decide) (by decide) (by decide)

/-- C9: `plot_pair_1d` invokes the user-supplied ground-truth `solution`
exactly once, on the evaluation points (the solve points, or their
`plot_coord` column when one is selected — the selection must be in bounds
for `solution` to be reached at all), in addition to `model.solve`; and a
`fill_between` band from `true - confidence` to `true + confidence` is drawn
exactly when the `confidence` argument is not `None` (its `x` and band
arguments must agree in length, else `fill_between` raises instead). -/
theorem plot_pair_1d_solution_and_band (solution : Mat ⊕ Vec → Except String Vec)
    (model : Model) (points : Option Mat) (plot_coord : Option Nat)
    (confidence : Option ℚ) (save : Bool) (path : String)
    (pts : Mat) (hpts : pts = points.getD ((linspace 0 1 200).map (fun x => [x])))
    (sel : Mat ⊕ Vec) (hsel : selPoints pts plot_coord = .ok sel)
    (ap : Vec) (hap : model.solve pts none = .ok ap) (hapl : ap.length = pts.length)
    (tv : Vec) (htv : solution sel = .ok tv) (htvl : tv.length = pts.length)
    (hfb : (flatSel sel).length = tv.length) :
    solutionCalls (plot_pair_1d solution model points plot_coord confidence save path).1
      = [sel] ∧
    fillBands (plot_pair_1d solution model points plot_coord confidence save path).1
      = (match confidence with
         | none => []
         | some conf => [[tv.map (fun y => y - conf), tv.map (fun y => y + conf)]]) := by
  subst hpts
  cases confidence <;> cases save <;>
    simp [plot_pair_1d, hsel, hap, htv, htvl, hapl, hfb, solutionCalls, fillBands,
      solutionCalls_append, fillBands_append]

/-- Witness for C9 with a two-point grid, a stub model, a stub ground truth
and `confidence = 1`. -/
theorem plot_pair_1d_solution_and_band_spot :
    solutionCalls (plot_pair_1d (fun _ => .ok [1, 2])
        ⟨fun g _ => .ok (g.map (fun _ => 0))⟩ (some [[0], [1]]) none (some 1) false
        "p.png").1
      = [Sum.inl [[0], [1]]] ∧
    fillBands (plot_pair_1d (fun _ => .ok [1, 2])
        ⟨fun g _ => .ok (g.map (fun _ => 0))⟩ (some [[0], [1]]) none (some 1) false
        "p.png").1
      = [[([1, 2] : Vec).map (fun y => y - 1), ([1, 2] : Vec).map (fun y => y + 1)]] :=
  plot_pair_1d_solution_and_band (fun _ => .ok [1, 2])
    ⟨fun g _ => .ok (g.map (fun _ => 0))⟩ (some [[0], [1]]) none (some 1) false "p.png"
    [[0], [1]] rfl (Sum.inl [[0], [1]]) rfl [0, 0] rfl rfl [1, 2] rfl rfl rfl

end PyDens
